import Mathlib

/-!
Shallow embedding of the sleeper-api TypeScript client (src/index.ts).

The client exposes one async accessor per remote GET endpoint, all of the
shape: build a path (and optional query parameters), call the injected
axios transport once, return the decoded body verbatim on success, and on
failure funnel the raised value through the centralized handleError
translator, which always throws a normalized message.

Modelling choices:
- A decoded JSON body is an opaque inductive value (JsonValue); the client
  never inspects it, so structural pass-through is literal.
- An axios GET request is its path plus an optional query-parameter map
  (present only when the accessor passes a config object, as
  getTrendingPlayers does).
- The transport is a function from a request to either a response or a
  structured failure; the Failure record carries the fields handleError
  reads: the axios classification flag, the optional response object, the
  truthiness of the request field, and the optional message string (none
  models a JavaScript undefined message).
- An accessor returns the list of transport calls it issued paired with
  an Except: ok body on success, error thrownMessage on failure. Throwing
  is thus modelled as the error branch of Except.
-/

/-- Decoded JSON response body, carried verbatim by the client. -/
inductive JsonValue where
  | null : JsonValue
  | bool : Bool → JsonValue
  | num : Int → JsonValue
  | str : String → JsonValue
  | arr : List JsonValue → JsonValue
  | obj : List (String × JsonValue) → JsonValue

/-- An axios GET request: the path, and the query parameters of the
optional config object (none when the accessor passes no config). -/
structure GetRequest where
  path : String
  params : Option (List (String × Int))
deriving DecidableEq

/-- An axios response as the accessors use it: a status and a data body. -/
structure AxiosResponse where
  status : Nat
  data : JsonValue

/-- The failure value caught by an accessor, with exactly the fields that
handleError inspects. message is none when the JavaScript value would be
undefined. -/
structure Failure where
  isAxiosError : Bool
  response : Option AxiosResponse
  hasRequest : Bool
  message : Option String

/-- What one transport GET call settles to. -/
inductive TransportOutcome where
  | ok : AxiosResponse → TransportOutcome
  | fail : Failure → TransportOutcome

/-- The injected axios instance, abstracted to its get method. -/
abbrev Transport := GetRequest → TransportOutcome

/-- JavaScript template-literal rendering of a possibly-undefined message:
an undefined value prints as the text undefined. -/
def renderMessage : Option String → String
  | some m => m
  | none => "undefined"

/-- The Error Translator (handleError, src/index.ts lines 551 to 581).
Returns the message of the error it throws; it throws on every input. -/
def handleError (error : Failure) : String :=
  if error.isAxiosError then
    match error.response with
    | some response =>
      let status := response.status
      if status = 400 then "Bad Request: Your request is invalid."
      else if status = 404 then "Not Found: The requested resource could not be found."
      else if status = 429 then "Too Many Requests: You are being rate limited."
      else if status = 500 then "Internal Server Error: Problem with the server."
      else if status = 503 then "Service Unavailable: The service is temporarily offline."
      else "Unexpected Error: " ++ toString status
    | none =>
      if error.hasRequest then
        "No response received from the server."
      else
        "Axios Error: " ++ renderMessage error.message
  else
    "Unexpected Error: " ++ renderMessage error.message

/-- Which of the four classification branches of handleError fires:
1 = status-code map, 2 = request sent but no response, 3 = transport
construction error with message, 4 = no transport classification.
Mirrors the if-nesting of handleError exactly. -/
def handleErrorBranch (error : Failure) : Nat :=
  if error.isAxiosError then
    match error.response with
    | some _ => 1
    | none => if error.hasRequest then 2 else 3
  else 4

/-- The common body of every accessor: one get call on the injected
transport; on success return response.data unchanged, on failure return
the message thrown by handleError. The first component is the list of
transport calls issued during the invocation. -/
def requestGet (axiosInstance : Transport) (req : GetRequest) :
    List GetRequest × Except String JsonValue :=
  match axiosInstance req with
  | TransportOutcome.ok response => ([req], Except.ok response.data)
  | TransportOutcome.fail error => ([req], Except.error (handleError error))

/-- Standalone avatar URL utility (getAvatarUrl, src/index.ts lines 15
to 21). -/
def getAvatarUrl (avatar_id : String) (thumbnail : Bool := false) : String :=
  let base := "https://sleepercdn.com/avatars"
  if thumbnail then base ++ "/thumbs/" ++ avatar_id else base ++ "/" ++ avatar_id

/-- The type union of the trending query: the string literals add and
drop. -/
inductive TrendingType where
  | add : TrendingType
  | drop : TrendingType
deriving DecidableEq

/-- The string a TrendingType interpolates to in the request path. -/
def TrendingType.render : TrendingType → String
  | TrendingType.add => "add"
  | TrendingType.drop => "drop"

def getUserByUsername (t : Transport) (username : String) :
    List GetRequest × Except String JsonValue :=
  requestGet t ⟨"/user/" ++ username, none⟩

def getUserById (t : Transport) (userId : String) :
    List GetRequest × Except String JsonValue :=
  requestGet t ⟨"/user/" ++ userId, none⟩

def getLeaguesForUser (t : Transport) (userId : String) (sport : String := "nfl")
    (season : String := "") : List GetRequest × Except String JsonValue :=
  requestGet t ⟨"/user/" ++ userId ++ "/leagues/" ++ sport ++ "/" ++ season, none⟩

def getLeague (t : Transport) (leagueId : String) :
    List GetRequest × Except String JsonValue :=
  requestGet t ⟨"/league/" ++ leagueId, none⟩

def getRosters (t : Transport) (leagueId : String) :
    List GetRequest × Except String JsonValue :=
  requestGet t ⟨"/league/" ++ leagueId ++ "/rosters", none⟩

def getUsersInLeague (t : Transport) (leagueId : String) :
    List GetRequest × Except String JsonValue :=
  requestGet t ⟨"/league/" ++ leagueId ++ "/users", none⟩

def getMatchups (t : Transport) (leagueId : String) (week : Int) :
    List GetRequest × Except String JsonValue :=
  requestGet t ⟨"/league/" ++ leagueId ++ "/matchups/" ++ toString week, none⟩

def getWinnersBracket (t : Transport) (leagueId : String) :
    List GetRequest × Except String JsonValue :=
  requestGet t ⟨"/league/" ++ leagueId ++ "/winners_bracket", none⟩

def getLosersBracket (t : Transport) (leagueId : String) :
    List GetRequest × Except String JsonValue :=
  requestGet t ⟨"/league/" ++ leagueId ++ "/losers_bracket", none⟩

def getTransactions (t : Transport) (leagueId : String) (round : Int) :
    List GetRequest × Except String JsonValue :=
  requestGet t ⟨"/league/" ++ leagueId ++ "/transactions/" ++ toString round, none⟩

def getTradedPicks (t : Transport) (leagueId : String) :
    List GetRequest × Except String JsonValue :=
  requestGet t ⟨"/league/" ++ leagueId ++ "/traded_picks", none⟩

def getState (t : Transport) (sport : String) :
    List GetRequest × Except String JsonValue :=
  requestGet t ⟨"/state/" ++ sport, none⟩

def getDraftsForUser (t : Transport) (userId : String) (sport : String := "nfl")
    (season : String := "") : List GetRequest × Except String JsonValue :=
  requestGet t ⟨"/user/" ++ userId ++ "/drafts/" ++ sport ++ "/" ++ season, none⟩

def getDraftsForLeague (t : Transport) (leagueId : String) :
    List GetRequest × Except String JsonValue :=
  requestGet t ⟨"/league/" ++ leagueId ++ "/drafts", none⟩

def getDraft (t : Transport) (draftId : String) :
    List GetRequest × Except String JsonValue :=
  requestGet t ⟨"/draft/" ++ draftId, none⟩

def getPicksInDraft (t : Transport) (draftId : String) :
    List GetRequest × Except String JsonValue :=
  requestGet t ⟨"/draft/" ++ draftId ++ "/picks", none⟩

def getTradedPicksInDraft (t : Transport) (draftId : String) :
    List GetRequest × Except String JsonValue :=
  requestGet t ⟨"/draft/" ++ draftId ++ "/traded_picks", none⟩

def getAllPlayers (t : Transport) (sport : String := "nfl") :
    List GetRequest × Except String JsonValue :=
  requestGet t ⟨"/players/" ++ sport, none⟩

def getTrendingPlayers (t : Transport) (sport : String) (type : TrendingType)
    (lookbackHours : Int := 24) (limit : Int := 25) :
    List GetRequest × Except String JsonValue :=
  requestGet t ⟨"/players/" ++ sport ++ "/trending/" ++ type.render,
    some [("lookback_hours", lookbackHours), ("limit", limit)]⟩

/-- A stubbed transport that resolves every request with a fixed fixture
body, used to instantiate the universally quantified theorems below. -/
def stubTransport : Transport :=
  fun _ => TransportOutcome.ok ⟨200, JsonValue.str "fixture"⟩

/-- A failure carrying a server response with the given status. -/
def axiosFailure (status : Nat) : Failure :=
  ⟨true, some ⟨status, JsonValue.null⟩, false, none⟩

/-- A failure where the request was sent but no response arrived. -/
def noResponseFailure : Failure :=
  ⟨true, none, true, some "timeout of 10000ms exceeded"⟩

/-- A transport construction failure exposing only a message. -/
def constructionFailure : Failure :=
  ⟨true, none, false, some "Invalid URL"⟩

/-- A non-axios failure with an undefined message. -/
def plainFailure : Failure :=
  ⟨false, none, false, none⟩

/-- A stubbed transport that rejects every request with the given
failure. -/
def failingTransport (e : Failure) : Transport :=
  fun _ => TransportOutcome.fail e

/-! ## Helper lemmas shared by the claim theorems -/

theorem requestGet_ok (t : Transport) (req : GetRequest) (resp : AxiosResponse)
    (h : t req = TransportOutcome.ok resp) :
    requestGet t req = ([req], Except.ok resp.data) := by
  unfold requestGet
  rw [h]

theorem requestGet_fail (t : Transport) (req : GetRequest) (e : Failure)
    (h : t req = TransportOutcome.fail e) :
    requestGet t req = ([req], Except.error (handleError e)) := by
  unfold requestGet
  rw [h]

theorem handleError_status (e : Failure) (resp : AxiosResponse)
    (hax : e.isAxiosError = true) (hresp : e.response = some resp) :
    handleError e =
      (if resp.status = 400 then "Bad Request: Your request is invalid."
       else if resp.status = 404 then "Not Found: The requested resource could not be found."
       else if resp.status = 429 then "Too Many Requests: You are being rate limited."
       else if resp.status = 500 then "Internal Server Error: Problem with the server."
       else if resp.status = 503 then "Service Unavailable: The service is temporarily offline."
       else "Unexpected Error: " ++ toString resp.status) := by
  unfold handleError
  rw [hresp]
  simp [hax]

/-! ## Claim theorems -/

/-- Claim C9: the avatar URL utility is a pure function of its two
arguments: with the thumbnail flag false it returns the CDN avatar base
followed by the identifier, with the flag true it inserts the thumbs
segment, and on the concrete identifier abc123 it produces the two
expected literal URLs. -/
theorem getAvatarUrl_spec (s : String) :
    getAvatarUrl s false = "https://sleepercdn.com/avatars/" ++ s ∧
    getAvatarUrl s true = "https://sleepercdn.com/avatars/thumbs/" ++ s ∧
    getAvatarUrl "abc123" false = "https://sleepercdn.com/avatars/abc123" ∧
    getAvatarUrl "abc123" true = "https://sleepercdn.com/avatars/thumbs/abc123" := by
  have h1 : ("https://sleepercdn.com/avatars" ++ "/" : String) =
      "https://sleepercdn.com/avatars/" := rfl
  have h2 : ("https://sleepercdn.com/avatars" ++ "/thumbs/" : String) =
      "https://sleepercdn.com/avatars/thumbs/" := rfl
  refine ⟨?_, ?_, rfl, rfl⟩
  · show ("https://sleepercdn.com/avatars" ++ "/") ++ s = _
    rw [h1]
  · show ("https://sleepercdn.com/avatars" ++ "/thumbs/") ++ s = _
    rw [h2]

/-- Claim C1: every failure carrying a server response with a status code
in the mapped set is translated to exactly the normalized message for that
code, and any accessor whose transport rejects with such a failure fails
with exactly that translated message. -/
theorem handleError_mapped_statuses (e : Failure) (resp : AxiosResponse)
    (hax : e.isAxiosError = true) (hresp : e.response = some resp) :
    ((resp.status = 400 → handleError e = "Bad Request: Your request is invalid.") ∧
     (resp.status = 404 →
       handleError e = "Not Found: The requested resource could not be found.") ∧
     (resp.status = 429 → handleError e = "Too Many Requests: You are being rate limited.") ∧
     (resp.status = 500 →
       handleError e = "Internal Server Error: Problem with the server.") ∧
     (resp.status = 503 →
       handleError e = "Service Unavailable: The service is temporarily offline.")) ∧
    (∀ t : Transport, ∀ req : GetRequest, t req = TransportOutcome.fail e →
       requestGet t req = ([req], Except.error (handleError e))) := by
  refine ⟨⟨?_, ?_, ?_, ?_, ?_⟩, fun t req h => requestGet_fail t req e h⟩ <;>
    intro hs <;> rw [handleError_status e resp hax hresp, hs] <;> rfl

/-- Witness for C1 at the concrete status 404. -/
theorem handleError_mapped_statuses_witness :
    handleError (axiosFailure 404) =
      "Not Found: The requested resource could not be found." :=
  (handleError_mapped_statuses (axiosFailure 404) ⟨404, JsonValue.null⟩
    rfl rfl).1.2.1 rfl

/-- Claim C5: a failure carrying a server response whose status code is
outside the mapped set is translated to the generic unexpected-error
message containing that numeric status code. -/
theorem handleError_unmapped_status (e : Failure) (resp : AxiosResponse)
    (hax : e.isAxiosError = true) (hresp : e.response = some resp)
    (hs : resp.status ∉ ([400, 404, 429, 500, 503] : List Nat)) :
    handleError e = "Unexpected Error: " ++ toString resp.status := by
  simp only [List.mem_cons, List.not_mem_nil, or_false, not_or] at hs
  obtain ⟨h1, h2, h3, h4, h5⟩ := hs
  rw [handleError_status e resp hax hresp,
    if_neg h1, if_neg h2, if_neg h3, if_neg h4, if_neg h5]

/-- Witness for C5 at the concrete status 418. -/
theorem handleError_unmapped_status_witness :
    handleError (axiosFailure 418) = "Unexpected Error: 418" :=
  (handleError_unmapped_status (axiosFailure 418) ⟨418, JsonValue.null⟩
    rfl rfl (by decide)).trans rfl

/-- Claim C6: a transport failure with a request but no response object is
translated to exactly the no-response message. -/
theorem handleError_no_response (e : Failure) (hax : e.isAxiosError = true)
    (hresp : e.response = none) (hreq : e.hasRequest = true) :
    handleError e = "No response received from the server." := by
  unfold handleError
  rw [hresp]
  simp [hax, hreq]

/-- Witness for C6 at a concrete timeout failure. -/
theorem handleError_no_response_witness :
    handleError noResponseFailure = "No response received from the server." :=
  handleError_no_response noResponseFailure rfl rfl rfl

/-- Claim C7: a transport-classified failure with no response and no
request object is translated to the original message prefixed by the
transport-error marker, so the thrown message contains the original
message text. -/
theorem handleError_transport_message (e : Failure) (m : String)
    (hax : e.isAxiosError = true) (hresp : e.response = none)
    (hreq : e.hasRequest = false) (hmsg : e.message = some m) :
    handleError e = "Axios Error: " ++ m ∧
    ∃ marker : String, handleError e = marker ++ m := by
  have h : handleError e = "Axios Error: " ++ m := by
    unfold handleError
    rw [hresp]
    simp [hax, hreq, hmsg, renderMessage]
  exact ⟨h, "Axios Error: ", h⟩

/-- Witness for C7 at a concrete construction failure. -/
theorem handleError_transport_message_witness :
    handleError constructionFailure = "Axios Error: " ++ "Invalid URL" :=
  (handleError_transport_message constructionFailure "Invalid URL"
    rfl rfl rfl rfl).1

/-- Claim C10: a failure that is not classified as an axios error and
carries no message field is translated to exactly the unexpected-error
message with the undefined placeholder embedded verbatim. -/
theorem handleError_undefined_message (e : Failure)
    (hax : e.isAxiosError = false) (hmsg : e.message = none) :
    handleError e = "Unexpected Error: undefined" := by
  unfold handleError
  rw [hax, hmsg]
  rfl

/-- Witness for C10 at a concrete message-free non-axios failure. -/
theorem handleError_undefined_message_witness :
    handleError plainFailure = "Unexpected Error: undefined" :=
  handleError_undefined_message plainFailure rfl rfl

/-- Claim C4: classification follows the stated priority order. Any
failure carrying a server response is classified by branch 1; among such
failures the translated message depends only on the status code,
regardless of the request or message fields; and the generic
unknown-error branch 4 fires exactly for failures with no transport
classification. -/
theorem handleError_priority (e : Failure) (resp : AxiosResponse)
    (hax : e.isAxiosError = true) (hresp : e.response = some resp) :
    handleErrorBranch e = 1 ∧
    (∀ e2 : Failure, ∀ resp2 : AxiosResponse, e2.isAxiosError = true →
      e2.response = some resp2 → resp2.status = resp.status →
      handleError e2 = handleError e) ∧
    (∀ e3 : Failure, handleErrorBranch e3 = 4 ↔ e3.isAxiosError = false) := by
  refine ⟨?_, ?_, ?_⟩
  · unfold handleErrorBranch
    rw [hresp]
    simp [hax]
  · intro e2 resp2 hax2 hresp2 hstat
    rw [handleError_status e2 resp2 hax2 hresp2,
      handleError_status e resp hax hresp, hstat]
  · intro e3
    obtain ⟨ax, r, q, m⟩ := e3
    cases ax <;> cases r <;> cases q <;> simp [handleErrorBranch]

/-- Witness for C4 at the concrete status 500: it lands in branch 1. -/
theorem handleError_priority_witness :
    handleErrorBranch (axiosFailure 500) = 1 :=
  (handleError_priority (axiosFailure 500) ⟨500, JsonValue.null⟩ rfl rfl).1

/-- Claim C3: the Error Translator is total over the failure space. The
branch index always lies in 1..4, each index fires exactly on its stated
condition (so exactly one branch applies to any failure), and an accessor
whose transport rejects always returns the translated error, never a
value. -/
theorem handleError_total (e : Failure) :
    ((handleErrorBranch e = 1 ↔
        e.isAxiosError = true ∧ e.response.isSome = true) ∧
     (handleErrorBranch e = 2 ↔
        e.isAxiosError = true ∧ e.response = none ∧ e.hasRequest = true) ∧
     (handleErrorBranch e = 3 ↔
        e.isAxiosError = true ∧ e.response = none ∧ e.hasRequest = false) ∧
     (handleErrorBranch e = 4 ↔ e.isAxiosError = false)) ∧
    (1 ≤ handleErrorBranch e ∧ handleErrorBranch e ≤ 4) ∧
    (∀ t : Transport, ∀ req : GetRequest, t req = TransportOutcome.fail e →
      requestGet t req = ([req], Except.error (handleError e))) := by
  obtain ⟨ax, r, q, m⟩ := e
  refine ⟨?_, ?_, fun t req h => requestGet_fail t req _ h⟩
  · cases ax <;> cases r <;> cases q <;> simp [handleErrorBranch]
  · cases ax <;> cases r <;> cases q <;> simp [handleErrorBranch]

/-- Witness for C3: a transport rejecting with a concrete unclassified
failure makes the accessor core return the translated error. -/
theorem handleError_total_witness :
    requestGet (failingTransport plainFailure) ⟨"/user/bob", none⟩ =
      ([⟨"/user/bob", none⟩], Except.error (handleError plainFailure)) :=
  (handleError_total plainFailure).2.2 (failingTransport plainFailure)
    ⟨"/user/bob", none⟩ rfl

/-- Claim C8: for every sport and trending type, calling
getTrendingPlayers without explicit lookback or limit arguments issues
exactly one GET request, to the trending path with query parameters
lookback_hours 24 and limit 25. -/
theorem getTrendingPlayers_default_query (t : Transport) (sport : String)
    (type : TrendingType) :
    (getTrendingPlayers t sport type).1 =
      [⟨"/players/" ++ sport ++ "/trending/" ++ type.render,
        some [("lookback_hours", 24), ("limit", 25)]⟩] := by
  unfold getTrendingPlayers requestGet
  cases t ⟨"/players/" ++ sport ++ "/trending/" ++ type.render,
      some [("lookback_hours", 24), ("limit", 25)]⟩ <;> rfl

/-- Claim C2: for every accessor method and every input, when the
injected transport resolves the expected request (path plus query
parameters where applicable) to a response, the accessor returns exactly
that response body unchanged and issues exactly one transport GET call. -/
theorem accessors_pass_through (t : Transport) (resp : AxiosResponse) :
    (∀ username : String,
      t ⟨"/user/" ++ username, none⟩ = TransportOutcome.ok resp →
      getUserByUsername t username =
        ([⟨"/user/" ++ username, none⟩], Except.ok resp.data)) ∧
    (∀ userId : String,
      t ⟨"/user/" ++ userId, none⟩ = TransportOutcome.ok resp →
      getUserById t userId =
        ([⟨"/user/" ++ userId, none⟩], Except.ok resp.data)) ∧
    (∀ userId sport season : String,
      t ⟨"/user/" ++ userId ++ "/leagues/" ++ sport ++ "/" ++ season, none⟩ =
          TransportOutcome.ok resp →
      getLeaguesForUser t userId sport season =
        ([⟨"/user/" ++ userId ++ "/leagues/" ++ sport ++ "/" ++ season, none⟩],
          Except.ok resp.data)) ∧
    (∀ leagueId : String,
      t ⟨"/league/" ++ leagueId, none⟩ = TransportOutcome.ok resp →
      getLeague t leagueId =
        ([⟨"/league/" ++ leagueId, none⟩], Except.ok resp.data)) ∧
    (∀ leagueId : String,
      t ⟨"/league/" ++ leagueId ++ "/rosters", none⟩ = TransportOutcome.ok resp →
      getRosters t leagueId =
        ([⟨"/league/" ++ leagueId ++ "/rosters", none⟩], Except.ok resp.data)) ∧
    (∀ leagueId : String,
      t ⟨"/league/" ++ leagueId ++ "/users", none⟩ = TransportOutcome.ok resp →
      getUsersInLeague t leagueId =
        ([⟨"/league/" ++ leagueId ++ "/users", none⟩], Except.ok resp.data)) ∧
    (∀ leagueId : String, ∀ week : Int,
      t ⟨"/league/" ++ leagueId ++ "/matchups/" ++ toString week, none⟩ =
          TransportOutcome.ok resp →
      getMatchups t leagueId week =
        ([⟨"/league/" ++ leagueId ++ "/matchups/" ++ toString week, none⟩],
          Except.ok resp.data)) ∧
    (∀ leagueId : String,
      t ⟨"/league/" ++ leagueId ++ "/winners_bracket", none⟩ =
          TransportOutcome.ok resp →
      getWinnersBracket t leagueId =
        ([⟨"/league/" ++ leagueId ++ "/winners_bracket", none⟩],
          Except.ok resp.data)) ∧
    (∀ leagueId : String,
      t ⟨"/league/" ++ leagueId ++ "/losers_bracket", none⟩ =
          TransportOutcome.ok resp →
      getLosersBracket t leagueId =
        ([⟨"/league/" ++ leagueId ++ "/losers_bracket", none⟩],
          Except.ok resp.data)) ∧
    (∀ leagueId : String, ∀ round : Int,
      t ⟨"/league/" ++ leagueId ++ "/transactions/" ++ toString round, none⟩ =
          TransportOutcome.ok resp →
      getTransactions t leagueId round =
        ([⟨"/league/" ++ leagueId ++ "/transactions/" ++ toString round, none⟩],
          Except.ok resp.data)) ∧
    (∀ leagueId : String,
      t ⟨"/league/" ++ leagueId ++ "/traded_picks", none⟩ =
          TransportOutcome.ok resp →
      getTradedPicks t leagueId =
        ([⟨"/league/" ++ leagueId ++ "/traded_picks", none⟩],
          Except.ok resp.data)) ∧
    (∀ sport : String,
      t ⟨"/state/" ++ sport, none⟩ = TransportOutcome.ok resp →
      getState t sport =
        ([⟨"/state/" ++ sport, none⟩], Except.ok resp.data)) ∧
    (∀ userId sport season : String,
      t ⟨"/user/" ++ userId ++ "/drafts/" ++ sport ++ "/" ++ season, none⟩ =
          TransportOutcome.ok resp →
      getDraftsForUser t userId sport season =
        ([⟨"/user/" ++ userId ++ "/drafts/" ++ sport ++ "/" ++ season, none⟩],
          Except.ok resp.data)) ∧
    (∀ leagueId : String,
      t ⟨"/league/" ++ leagueId ++ "/drafts", none⟩ = TransportOutcome.ok resp →
      getDraftsForLeague t leagueId =
        ([⟨"/league/" ++ leagueId ++ "/drafts", none⟩], Except.ok resp.data)) ∧
    (∀ draftId : String,
      t ⟨"/draft/" ++ draftId, none⟩ = TransportOutcome.ok resp →
      getDraft t draftId =
        ([⟨"/draft/" ++ draftId, none⟩], Except.ok resp.data)) ∧
    (∀ draftId : String,
      t ⟨"/draft/" ++ draftId ++ "/picks", none⟩ = TransportOutcome.ok resp →
      getPicksInDraft t draftId =
        ([⟨"/draft/" ++ draftId ++ "/picks", none⟩], Except.ok resp.data)) ∧
    (∀ draftId : String,
      t ⟨"/draft/" ++ draftId ++ "/traded_picks", none⟩ =
          TransportOutcome.ok resp →
      getTradedPicksInDraft t draftId =
        ([⟨"/draft/" ++ draftId ++ "/traded_picks", none⟩],
          Except.ok resp.data)) ∧
    (∀ sport : String,
      t ⟨"/players/" ++ sport, none⟩ = TransportOutcome.ok resp →
      getAllPlayers t sport =
        ([⟨"/players/" ++ sport, none⟩], Except.ok resp.data)) ∧
    (∀ sport : String, ∀ type : TrendingType, ∀ lookbackHours limit : Int,
      t ⟨"/players/" ++ sport ++ "/trending/" ++ type.render,
          some [("lookback_hours", lookbackHours), ("limit", limit)]⟩ =
          TransportOutcome.ok resp →
      getTrendingPlayers t sport type lookbackHours limit =
        ([⟨"/players/" ++ sport ++ "/trending/" ++ type.render,
            some [("lookback_hours", lookbackHours), ("limit", limit)]⟩],
          Except.ok resp.data)) :=
  ⟨fun _ h => requestGet_ok t _ resp h,
   fun _ h => requestGet_ok t _ resp h,
   fun _ _ _ h => requestGet_ok t _ resp h,
   fun _ h => requestGet_ok t _ resp h,
   fun _ h => requestGet_ok t _ resp h,
   fun _ h => requestGet_ok t _ resp h,
   fun _ _ h => requestGet_ok t _ resp h,
   fun _ h => requestGet_ok t _ resp h,
   fun _ h => requestGet_ok t _ resp h,
   fun _ _ h => requestGet_ok t _ resp h,
   fun _ h => requestGet_ok t _ resp h,
   fun _ h => requestGet_ok t _ resp h,
   fun _ _ _ h => requestGet_ok t _ resp h,
   fun _ h => requestGet_ok t _ resp h,
   fun _ h => requestGet_ok t _ resp h,
   fun _ h => requestGet_ok t _ resp h,
   fun _ h => requestGet_ok t _ resp h,
   fun _ h => requestGet_ok t _ resp h,
   fun _ _ _ _ h => requestGet_ok t _ resp h⟩

/-- Witness for C2: the stubbed transport resolves a concrete user lookup
to the fixture body with exactly one call recorded. -/
theorem accessors_pass_through_witness :
    getUserByUsername stubTransport "bob" =
      ([⟨"/user/" ++ "bob", none⟩], Except.ok (JsonValue.str "fixture")) :=
  (accessors_pass_through stubTransport ⟨200, JsonValue.str "fixture"⟩).1 "bob" rfl
